import Mathlib

/-!
Shallow embedding of the wallpaper installation and video-conversion pipeline
of the MacOS-Live-Video-Wallpaper repository: the `WallpaperManager` class of
the wallpaper manager module, the `VideoDownloader` class of
`src/downloader.js`, the `Utils` helpers of `src/utils.js` and the constants
of `src/config.js`.

Effectful JavaScript code is embedded as pure functions over explicit
environments that record the outcome of every filesystem, subprocess and
user-interaction effect the code performs.  Each flow additionally returns an
event trace listing its externally visible actions in order (prompts shown,
backup copy attempts, installer invocations, writes into the OS target
directory, ffmpeg invocations), so that claims about "what happened during a
run" become statements about the trace.
-/

/-! ## JavaScript string primitives used by the code -/

/-- Characters skipped by the leading-whitespace step of JavaScript
`parseInt`. -/
def jsWhitespace (c : Char) : Bool :=
  c = ' ' || c = '\t' || c = '\n' || c = '\r'

/-- Value of the longest leading decimal-digit run; `none` when that run is
empty, which is how JavaScript `parseInt` produces `NaN`. -/
def leadingDigitsVal (cs : List Char) : Option Nat :=
  let ds := cs.takeWhile Char.isDigit
  if ds = [] then none
  else some (ds.foldl (fun n c => n * 10 + (c.toNat - '0'.toNat)) 0)

/-- JavaScript `parseInt(s)` in radix 10 (the rarely relevant automatic
hexadecimal detection of `parseInt` is not modelled): skip leading whitespace,
read an optional sign and then the longest leading digit run, ignoring any
trailing characters; `none` models `NaN`. -/
def jsParseInt (s : String) : Option Int :=
  match s.toList.dropWhile jsWhitespace with
  | '-' :: rest => (leadingDigitsVal rest).map (fun n => -(n : Int))
  | '+' :: rest => (leadingDigitsVal rest).map (fun n => (n : Int))
  | rest => (leadingDigitsVal rest).map (fun n => (n : Int))

/-- ASCII model of JavaScript `toLowerCase`. -/
def jsToLower (s : String) : String :=
  String.mk (s.toList.map Char.toLower)

/-- Model of Node `path.join` for the simple two-segment joins performed by
the code (no normalisation is needed for these inputs). -/
def pathJoin (a b : String) : String := a ++ "/" ++ b

/-- Whether the character list `pat` occurs at the start of `hay`. -/
def charsStartWith : List Char → List Char → Bool
  | _, [] => true
  | [], _ :: _ => false
  | c :: cs, d :: ds => c = d && charsStartWith cs ds

/-- Whether the character list `pat` occurs anywhere inside `hay`. -/
def charsContain (hay pat : List Char) : Bool :=
  charsStartWith hay pat ||
    match hay with
    | [] => false
    | _ :: cs => charsContain cs pat

/-- JavaScript `String.prototype.includes` for the non-empty literal needles
used by the code. -/
def jsIncludes (s sub : String) : Bool :=
  charsContain s.toList sub.toList

/-- Node `path.extname`: the portion of the basename from its last dot to the
end; empty when the basename has no dot or only a leading dot. -/
def extname (p : String) : String :=
  let base := (p.toList.reverse.takeWhile (fun c => c ≠ '/')).reverse
  let afterDot := base.reverse.takeWhile (fun c => c ≠ '.')
  match base.reverse.dropWhile (fun c => c ≠ '.') with
  | [] => ""
  | _ :: before => if before = [] then "" else String.mk ('.' :: afterDot.reverse)

/-- The JavaScript replacement `p.replace(/\.[^.]+$/, suff)` used by the
downloader to derive its output paths: replace a final dot-extension (a dot
followed by one or more non-dot characters at the end of the string) with
`suff`, leaving `p` unchanged when no such extension exists. -/
def jsReplaceLastExt (p suff : String) : String :=
  let r := p.toList.reverse
  let afterDot := r.takeWhile (fun c => c ≠ '.')
  match r.dropWhile (fun c => c ≠ '.') with
  | [] => p
  | _ :: before =>
    if afterDot = [] then p
    else String.mk before.reverse ++ suff

/-- Node `path.parse(name).name`: the basename without its extension. -/
def stripExtName (s : String) : String :=
  s.dropRight (extname s).length

/-! ## Configuration constants (src/config.js and the WallpaperManager
constructor) -/

/-- `this.customerDir` of the WallpaperManager constructor. -/
def customerDir : String :=
  "/Library/Application Support/com.apple.idleassetsd/Customer"

/-- `this.targetDir = path.join(this.customerDir, '4KSDR240FPS')`. -/
def targetDir : String := pathJoin customerDir "4KSDR240FPS"

/-- `this.backupDir = path.join(process.cwd(), 'outputs', 'wallpaper_backups')`,
modelled relative to the process working directory. -/
def backupDir : String := pathJoin "outputs" "wallpaper_backups"

/-- `this.retryAttempts = 30` of the WallpaperManager constructor. -/
def retryAttempts : Nat := 30

/-- `this.retryInterval = 1000` (milliseconds) of the WallpaperManager
constructor. -/
def retryInterval : Nat := 1000

/-- `CONFIG.WALLPAPER_SETTINGS.minRecommendedDuration = 60` seconds. -/
def minRecommendedDuration : Nat := 60

/-! ## Data model of the wallpaper manager -/

/-- A wallpaper asset as produced by `getExistingWallpapers`: the fields
`created` and `modified` of the JavaScript object are used only for display
and sorting and are omitted. -/
structure Wallpaper where
  name : String
  path : String
  size : Nat
deriving DecidableEq, Repr

/-- Externally visible events of a `setupWallpaper` run. -/
inductive Ev where
  /-- The empty-directory branch was taken and the seed-wait poll entered. -/
  | seedWait
  /-- The numbered selection prompt of `selectWallpaperFromList` was shown. -/
  | selectPrompt
  /-- The yes/no prompt of `getUserConfirmation` for the named asset. -/
  | confirmPrompt (name : String)
  /-- `createBackup` attempted to copy the named asset to the backup dir. -/
  | backupAttempt (name : String)
  /-- The backup copy of the named asset completed. -/
  | backupDone (name : String)
  /-- `installWallpaper` was invoked with this target name and video path. -/
  | installCall (targetName videoPath : String)
  /-- `fs.copyFileSync` wrote the file at this path in the target dir. -/
  | targetWrite (path : String)
deriving DecidableEq, Repr

/-! ## WallpaperManager.waitForWallpaperSetup -/

/-- The polling loop of `waitForWallpaperSetup`, with `polls i` the listing
returned by `getExistingWallpapers` at poll attempt `i`: return the first
wallpaper of the first non-empty listing, or `none` (the timeout error) once
the remaining attempts are exhausted. -/
def waitFrom (polls : Nat → List Wallpaper) (attempt : Nat) : Nat → Option Wallpaper
  | 0 => none
  | r + 1 =>
    match polls attempt with
    | [] => waitFrom polls (attempt + 1) r
    | w :: _ => some w

/-- `waitForWallpaperSetup`: poll the directory `retryAttempts` times. -/
def waitForWallpaperSetup (polls : Nat → List Wallpaper) : Option Wallpaper :=
  waitFrom polls 0 retryAttempts

/-! ## WallpaperManager.selectWallpaperFromList -/

/-- The cancel test of the selection prompt:
`answer.toLowerCase() === 'c' || answer.toLowerCase() === 'cancel'`. -/
def jsIsCancel (answer : String) : Bool :=
  jsToLower answer = "c" || jsToLower answer = "cancel"

/-- `selectWallpaperFromList`, driven by the stream of user answers: resolve
`some none` on a cancel answer, `some (some w)` on a valid numeric choice, and
re-prompt (consume the answer and recurse) on any other answer.  An exhausted
answer stream yields `none`: the promise has not resolved.  The trace records
one `Ev.selectPrompt` per prompt shown. -/
def selectWallpaperFromList (ws : List Wallpaper) :
    List String → Option (Option Wallpaper) × List Ev
  | [] => (none, [Ev.selectPrompt])
  | a :: rest =>
    if jsIsCancel a then (some none, [Ev.selectPrompt])
    else
      match jsParseInt a with
      | none =>
        let r := selectWallpaperFromList ws rest
        (r.1, Ev.selectPrompt :: r.2)
      | some k =>
        if hk : 1 ≤ k ∧ k ≤ (ws.length : Int) then
          (some (some (ws.get ⟨(k - 1).toNat, by omega⟩)), [Ev.selectPrompt])
        else
          let r := selectWallpaperFromList ws rest
          (r.1, Ev.selectPrompt :: r.2)

/-! ## WallpaperManager.getUserConfirmation -/

/-- The affirmative test of the confirmation prompt:
`answer.toLowerCase() === 'y' || answer.toLowerCase() === 'yes'`. -/
def jsIsYes (answer : String) : Bool :=
  jsToLower answer = "y" || jsToLower answer = "yes"

/-- `getUserConfirmation`: `fs.statSync(newVideoPath)` runs before the
question is asked, so when it throws (`videoStatOk = false`) the promise
rejects with no prompt shown (`none`); otherwise the prompt is shown and the
answer decides the boolean. -/
def getUserConfirmation (w : Wallpaper) (videoStatOk : Bool) (answer : String) :
    Option Bool × List Ev :=
  if videoStatOk then (some (jsIsYes answer), [Ev.confirmPrompt w.name])
  else (none, [])

/-! ## WallpaperManager.createBackup and installWallpaper -/

/-- The backup file name
`` `${path.parse(wallpaperFile.name).name}_backup_${timestamp}.mov` ``. -/
def backupName (w : Wallpaper) (ts : String) : String :=
  stripExtName w.name ++ "_backup_" ++ ts ++ ".mov"

/-- `createBackup`: ensure the backup dir and copy the asset there; any error
is caught and turned into a `null` (`none`) result — the error does not
propagate.  `copyOk` records whether the `ensureDirectoryExists` +
`copyFileSync` pair succeeded.  The permission fix that follows the copy never
throws and does not affect the result. -/
def createBackup (w : Wallpaper) (copyOk : Bool) (ts : String) :
    Option String × List Ev :=
  if copyOk then
    (some (pathJoin backupDir (backupName w ts)),
     [Ev.backupAttempt w.name, Ev.backupDone w.name])
  else (none, [Ev.backupAttempt w.name])

/-- `installWallpaper`: copy the video over `path.join(this.targetDir,
targetWallpaperName)` and verify with `existsSync`; a copy error is caught and
yields `false`, and a failed verification throws into the method's own catch,
also yielding `false`.  The wallpaper-system refresh that runs on success is
best-effort and swallowed, and is not modelled. -/
def installWallpaper (videoPath targetName : String) (copyOk verifyOk : Bool) :
    Bool × List Ev :=
  let targetPath := pathJoin targetDir targetName
  if copyOk then
    if verifyOk then
      (true, [Ev.installCall targetName videoPath, Ev.targetWrite targetPath])
    else
      (false, [Ev.installCall targetName videoPath, Ev.targetWrite targetPath])
  else (false, [Ev.installCall targetName videoPath])

/-! ## WallpaperManager.setupWallpaper -/

/-- Environment of one `setupWallpaper` run: the outcome of every effect the
flow can perform.  `initial` is the listing `getExistingWallpapers` returns at
entry (the code's `isTargetDirectoryEmpty` and its immediate re-listing see
the same single-threaded state); `polls` are the listings seen by the
seed-wait poll. -/
structure SetupEnv where
  hasAccess : Bool
  initial : List Wallpaper
  polls : Nat → List Wallpaper
  answers : List String
  confirmAnswer : String
  videoStatOk : Bool
  backupCopyOk : Bool
  installCopyOk : Bool
  installVerifyOk : Bool
  videoPath : String
  ts : String

/-- The "Create backup; Install new wallpaper" block that `setupWallpaper`
repeats verbatim in each of its three branches: back up the chosen asset
(ignoring the result, which `setupWallpaper` never inspects) and install the
converted video under the asset's own name. -/
def backupThenInstall (w : Wallpaper) (env : SetupEnv) : Bool × List Ev :=
  let b := createBackup w env.backupCopyOk env.ts
  let inst := installWallpaper env.videoPath w.name env.installCopyOk env.installVerifyOk
  (inst.1, b.2 ++ inst.2)

/-- `setupWallpaper`: the complete workflow.  The result is `some b` for a
run that returns the boolean `b` (every thrown error is caught by the
method's own catch and returns `false`), and `none` for a run that never
resolves because the selection prompt consumed all available answers. -/
def setupWallpaper (env : SetupEnv) : Option Bool × List Ev :=
  if env.hasAccess = false then (some false, [])
  else
    match env.initial with
    | [] =>
      match waitForWallpaperSetup env.polls with
      | none => (some false, [Ev.seedWait])
      | some w =>
        let bi := backupThenInstall w env
        (some bi.1, Ev.seedWait :: bi.2)
    | [w] =>
      match getUserConfirmation w env.videoStatOk env.confirmAnswer with
      | (none, evs) => (some false, evs)
      | (some false, evs) => (some false, evs)
      | (some true, evs) =>
        let bi := backupThenInstall w env
        (some bi.1, evs ++ bi.2)
    | w1 :: w2 :: rest =>
      let sel := selectWallpaperFromList (w1 :: w2 :: rest) env.answers
      match sel.1 with
      | none => (none, sel.2)
      | some none => (some false, sel.2)
      | some (some w) =>
        match getUserConfirmation w env.videoStatOk env.confirmAnswer with
        | (none, evs) => (some false, sel.2 ++ evs)
        | (some false, evs) => (some false, sel.2 ++ evs)
        | (some true, evs) =>
          let bi := backupThenInstall w env
          (some bi.1, sel.2 ++ evs ++ bi.2)

/-! ## VideoDownloader: ffmpeg invocation outcomes -/

/-- Outcome of one spawned ffmpeg process as observed by the downloader's
handlers: either the `close` event with an exit code together with the state
of the expected output file at that moment, or the `error` (spawn failure)
event with its message.  The output size is recorded to express that the
handlers never consult it. -/
inductive FfmpegOutcome where
  | close (code : Int) (outputExists : Bool) (outputSize : Nat)
  | errored (msg : String)
deriving DecidableEq, Repr

/-- Resolution of one downloader promise: `ok` with the resolved path or
`err` with the rejection message. -/
inductive ConvResult where
  | ok (path : String)
  | err (msg : String)
deriving DecidableEq, Repr

/-- Whether a `ConvResult` is a success. -/
def ConvResult.isOk : ConvResult → Bool
  | .ok _ => true
  | .err _ => false

/-! ## VideoDownloader.extendVideo -/

/-- The ffmpeg argument list built by `extendVideo`. -/
def extendArgs (inputPath : String) (minDuration : Nat) (outputPath : String) :
    List String :=
  ["-stream_loop", "-1",
   "-i", inputPath,
   "-t", toString minDuration,
   "-c", "copy",
   "-avoid_negative_ts", "make_zero",
   "-fflags", "+genpts",
   "-y",
   outputPath]

/-- The `close`/`error` handlers of `extendVideo`: resolve with the output
path on exit code 0 provided the output file exists (its size is not
examined); reject on a zero exit with a missing output, on any non-zero exit,
and on a spawn error. -/
def extendVideo (outcome : FfmpegOutcome) (outputPath : String) : ConvResult :=
  match outcome with
  | .close code outputExists _ =>
    if code = 0 then
      if outputExists then .ok outputPath
      else .err "Extended video file not found after processing"
    else .err ("Video extension failed with code " ++ toString code)
  | .errored m => .err ("FFmpeg extension error: " ++ m)

/-! ## VideoDownloader.convertWithHEVC -/

/-- The ffmpeg argument list built by `convertWithHEVC` for one attempt:
`useFallback = false` selects the `hevc_videotoolbox` hardware encoder, and
`useFallback = true` selects `libx265` plus the explicit software profile
settings (`-profile:v main10 -level 5.1 -preset medium`). -/
def hevcArgs (useFallback : Bool) (inputPath outputPath : String) : List String :=
  ["-i", inputPath,
   "-c:v", if useFallback then "libx265" else "hevc_videotoolbox",
   "-c:a", "aac",
   "-tag:v", "hvc1",
   "-movflags", "+faststart",
   "-pix_fmt", "yuv420p10le",
   "-r", "60",
   "-vf", "scale=3840:2160:flags=lanczos",
   "-b:v", "50M",
   "-maxrate", "60M",
   "-bufsize", "100M"]
  ++ (if useFallback then ["-profile:v", "main10", "-level", "5.1", "-preset", "medium"]
      else [])
  ++ ["-progress", "pipe:1", "-y", outputPath]

/-- The handlers of a `convertWithHEVC` run with `useFallback = true`: no
retry condition applies, so the attempt's own outcome decides the promise.
On exit code 0 the output file is verified with `existsSync` only. -/
def hevcSoftwareAttempt (outcome : FfmpegOutcome) (outputPath : String) : ConvResult :=
  match outcome with
  | .close code outputExists _ =>
    if code = 0 then
      if outputExists then .ok outputPath
      else .err "Conversion completed but output file not found"
    else .err ("FFmpeg HEVC conversion failed with code " ++ toString code)
  | .errored m => .err ("FFmpeg error: " ++ m)

/-- `convertWithHEVC` started with `useFallback = false`: `hw` is the outcome
of the hardware-encoder process, `sw` that of the software-encoder process
should the retry be reached.  The second component lists the argument list of
every ffmpeg invocation that was spawned, in order.  A non-zero exit code of
1 or 69, or a spawn error whose message mentions `videotoolbox`, triggers the
single software retry; every other failure rejects immediately. -/
def convertWithHEVC (hw sw : FfmpegOutcome) (inputPath outputPath : String) :
    ConvResult × List (List String) :=
  match hw with
  | .close code outputExists _ =>
    if code = 0 then
      (if outputExists then .ok outputPath
       else .err "Conversion completed but output file not found",
       [hevcArgs false inputPath outputPath])
    else if code = 1 ∨ code = 69 then
      (hevcSoftwareAttempt sw outputPath,
       [hevcArgs false inputPath outputPath, hevcArgs true inputPath outputPath])
    else
      (.err ("FFmpeg HEVC conversion failed with code " ++ toString code),
       [hevcArgs false inputPath outputPath])
  | .errored m =>
    if jsIncludes m "videotoolbox" then
      (hevcSoftwareAttempt sw outputPath,
       [hevcArgs false inputPath outputPath, hevcArgs true inputPath outputPath])
    else
      (.err ("FFmpeg error: " ++ m), [hevcArgs false inputPath outputPath])

/-! ## VideoDownloader.cleanupSourceFile -/

/-- Environment of one `cleanupSourceFile` call.  `firstUnlinkErr` is `none`
when the first `fs.unlinkSync` succeeds and `some code` when it throws an
error carrying that `code` string; `chmodOk` and `secondUnlinkOk` describe
the permission-fix retry. -/
structure CleanupEnv where
  sourcePath : String
  convertedExists : Bool
  sourceExists : Bool
  sourceSize : Nat
  convertedSize : Nat
  firstUnlinkErr : Option String
  chmodOk : Bool
  secondUnlinkOk : Bool

/-- `cleanupSourceFile`, returning whether the source file was deleted.  The
converted file must exist, the converted size must be at least a tenth of the
source size (the JavaScript float comparison `converted < source * 0.1` is
modelled exactly on naturals as `10 * converted < source`), and the source
extension must lower-case to `.mp4`.  A first-unlink failure with code
`EPERM` or `EACCES` is retried once after `fs.chmodSync(sourcePath, 0o666)`;
any other unlink error is re-thrown into the outer catch and the source is
kept, as it also is when the second attempt or the chmod fails. -/
def cleanupSourceFile (env : CleanupEnv) : Bool :=
  if env.convertedExists = false then false
  else if env.sourceExists = false then false
  else if 10 * env.convertedSize < env.sourceSize then false
  else if jsToLower (extname env.sourcePath) = ".mp4" then
    match env.firstUnlinkErr with
    | none => true
    | some code =>
      if code = "EPERM" ∨ code = "EACCES" then
        if env.chmodOk then env.secondUnlinkOk else false
      else false
  else false

/-! ## VideoDownloader.convertToMov -/

/-- Externally visible events of a `convertToMov` run. -/
inductive DEv where
  /-- `getVideoDuration` probed this path. -/
  | probe (path : String)
  /-- `extendVideo` spawned ffmpeg with these arguments. -/
  | extendCall (args : List String)
  /-- `convertWithHEVC` was invoked on this input and output path. -/
  | convertCall (inputPath outputPath : String)
  /-- The temporary extended file at this path was unlinked by the caller. -/
  | unlinkIntermediate (path : String)
  /-- `cleanupSourceFile` was invoked with this source and converted path. -/
  | cleanupCall (sourcePath convertedPath : String)
deriving DecidableEq, Repr

/-- Environment of one `convertToMov` run.  `durationProbe` is the duration
reported by the initial `getVideoDuration` (`none` when the probe fails);
`extendProbeOk` records whether the second probe inside `extendVideo`
(used only for the loop-count log line) succeeds. -/
structure ConvertToMovEnv where
  inputPath : String
  movExists : Bool
  durationProbe : Option ℚ
  extendProbeOk : Bool
  extendOutcome : FfmpegOutcome
  hwOutcome : FfmpegOutcome
  swOutcome : FfmpegOutcome

/-- `convertToMov`: return an existing `.mov` immediately; otherwise probe
the duration, extend through `extendVideo` when it is below the configured
minimum, transcode through `convertWithHEVC`, unlink the temporary extended
file after a successful transcode (only when one was created), and hand the
source and converted paths to `cleanupSourceFile`.  Failures propagate as
rejections (`ConvResult.err`) at the point they occur. -/
def convertToMov (env : ConvertToMovEnv) : ConvResult × List DEv :=
  let outputPath := jsReplaceLastExt env.inputPath ".mov"
  if env.movExists then (.ok outputPath, [])
  else
    match env.durationProbe with
    | none => (.err "Failed to parse video duration", [DEv.probe env.inputPath])
    | some d =>
      if d < (minRecommendedDuration : ℚ) then
        if env.extendProbeOk = false then
          (.err "Failed to get original video duration", [DEv.probe env.inputPath])
        else
          let extendedPath := jsReplaceLastExt env.inputPath "_extended.mp4"
          let eArgs := extendArgs env.inputPath minRecommendedDuration extendedPath
          match extendVideo env.extendOutcome extendedPath with
          | .err m => (.err m, [DEv.probe env.inputPath, DEv.extendCall eArgs])
          | .ok ep =>
            match (convertWithHEVC env.hwOutcome env.swOutcome ep outputPath).1 with
            | .err m =>
              (.err m,
               [DEv.probe env.inputPath, DEv.extendCall eArgs,
                DEv.convertCall ep outputPath])
            | .ok cp =>
              let unlinkEvs :=
                if ep ≠ env.inputPath then [DEv.unlinkIntermediate ep] else []
              (.ok cp,
               [DEv.probe env.inputPath, DEv.extendCall eArgs,
                DEv.convertCall ep outputPath]
               ++ unlinkEvs ++ [DEv.cleanupCall env.inputPath cp])
      else
        match (convertWithHEVC env.hwOutcome env.swOutcome env.inputPath outputPath).1 with
        | .err m =>
          (.err m, [DEv.probe env.inputPath, DEv.convertCall env.inputPath outputPath])
        | .ok cp =>
          (.ok cp,
           [DEv.probe env.inputPath, DEv.convertCall env.inputPath outputPath,
            DEv.cleanupCall env.inputPath cp])

/-! ## Utils.fixFilePermissions -/

/-- Outcome of the spawned `chown` process: its `close` event with an exit
code, or its `error` (spawn failure) event. -/
inductive ProcOutcome where
  | close (code : Int)
  | errored (msg : String)
deriving DecidableEq, Repr

/-- JavaScript truthiness of an environment variable read: absent (`none`)
and the empty string are falsy. -/
def truthy : Option String → Bool
  | none => false
  | some s => s ≠ ""

/-- JavaScript `a || b` on environment-variable reads. -/
def jsOrFalsy (a b : Option String) : Option String :=
  if truthy a then a else b

/-- Environment of one `Utils.fixFilePermissions` call: the four environment
variables it reads, the outcome of the `chown` subprocess (relevant only when
it is spawned) and whether `fs.chmodSync` succeeds. -/
structure PermEnv where
  sudoUser : Option String
  user : Option String
  sudoUid : Option String
  sudoGid : Option String
  chownOutcome : ProcOutcome
  chmodOk : Bool

/-- `Utils.fixFilePermissions`, returning `(result, chownRan)`.  With
`SUDO_USER || USER`, `SUDO_UID` and `SUDO_GID` all truthy, `chown` runs:
exit code 0 is followed by `chmodSync 0o664` (a chmod exception resolves
`false`), any other exit code and the spawn-error event resolve `false`.
Without the elevated-privilege identifiers only the `chmodSync 0o664` step
runs.  Every failure path resolves `false`: the promise never rejects, which
this total function renders by construction. -/
def fixFilePermissions (env : PermEnv) : Bool × Bool :=
  let originalUser := jsOrFalsy env.sudoUser env.user
  if truthy originalUser && truthy env.sudoUid && truthy env.sudoGid then
    match env.chownOutcome with
    | .close code =>
      if code = 0 then (if env.chmodOk then (true, true) else (false, true))
      else (false, true)
    | .errored _ => (false, true)
  else
    (if env.chmodOk then true else false, false)

/-! ## Concrete run environments used by witnesses and counterexamples -/

/-- A run with a single existing asset `a.mov`, an affirmative confirmation,
a failing backup copy and a succeeding install. -/
def envBackupFails : SetupEnv :=
  { hasAccess := true, initial := [⟨"a.mov", pathJoin targetDir "a.mov", 5⟩],
    polls := fun _ => [], answers := [], confirmAnswer := "y",
    videoStatOk := true, backupCopyOk := false, installCopyOk := true,
    installVerifyOk := true, videoPath := "v.mov", ts := "T" }

/-- A fully successful single-asset replacement run. -/
def envHappy : SetupEnv :=
  { hasAccess := true, initial := [⟨"a.mov", pathJoin targetDir "a.mov", 5⟩],
    polls := fun _ => [], answers := [], confirmAnswer := "y",
    videoStatOk := true, backupCopyOk := true, installCopyOk := true,
    installVerifyOk := true, videoPath := "v.mov", ts := "T" }

/-- A single-asset run in which the user declines the confirmation. -/
def envDecline : SetupEnv :=
  { hasAccess := true, initial := [⟨"a.mov", pathJoin targetDir "a.mov", 5⟩],
    polls := fun _ => [], answers := [], confirmAnswer := "n",
    videoStatOk := true, backupCopyOk := true, installCopyOk := true,
    installVerifyOk := true, videoPath := "v.mov", ts := "T" }

/-- A run that fails at the directory-access check. -/
def envNoAccess : SetupEnv :=
  { hasAccess := false, initial := [⟨"a.mov", pathJoin targetDir "a.mov", 5⟩],
    polls := fun _ => [], answers := [], confirmAnswer := "y",
    videoStatOk := true, backupCopyOk := true, installCopyOk := true,
    installVerifyOk := true, videoPath := "v.mov", ts := "T" }

/-- An empty-directory run whose polls never find an asset. -/
def envSeedTimeout : SetupEnv :=
  { hasAccess := true, initial := [], polls := fun _ => [],
    answers := [], confirmAnswer := "y", videoStatOk := true,
    backupCopyOk := true, installCopyOk := true, installVerifyOk := true,
    videoPath := "v.mov", ts := "T" }

/-- A two-asset run in which the user first answers garbage, then picks the
second asset and confirms. -/
def envTwoAssets : SetupEnv :=
  { hasAccess := true,
    initial := [⟨"a.mov", pathJoin targetDir "a.mov", 5⟩,
                ⟨"b.mov", pathJoin targetDir "b.mov", 6⟩],
    polls := fun _ => [], answers := ["zz", "2"], confirmAnswer := "yes",
    videoStatOk := true, backupCopyOk := true, installCopyOk := true,
    installVerifyOk := true, videoPath := "v.mov", ts := "T" }

/-- A two-asset run cancelled at the selection prompt. -/
def envSelectCancel : SetupEnv :=
  { hasAccess := true,
    initial := [⟨"a.mov", pathJoin targetDir "a.mov", 5⟩,
                ⟨"b.mov", pathJoin targetDir "b.mov", 6⟩],
    polls := fun _ => [], answers := ["c"], confirmAnswer := "yes",
    videoStatOk := true, backupCopyOk := true, installCopyOk := true,
    installVerifyOk := true, videoPath := "v.mov", ts := "T" }

/-- A short-video conversion run in which everything succeeds. -/
def envShortVideo : ConvertToMovEnv :=
  { inputPath := "x.mp4", movExists := false, durationProbe := some 45,
    extendProbeOk := true, extendOutcome := .close 0 true 9,
    hwOutcome := .close 0 true 9, swOutcome := .close 0 true 9 }

/-- A long-enough-video conversion run in which everything succeeds. -/
def envLongVideo : ConvertToMovEnv :=
  { inputPath := "x.mp4", movExists := false, durationProbe := some 61,
    extendProbeOk := true, extendOutcome := .close 0 true 9,
    hwOutcome := .close 0 true 9, swOutcome := .close 0 true 9 }

/-- A cleanup call whose guards all pass and whose first unlink succeeds. -/
def envCleanupOk : CleanupEnv :=
  { sourcePath := "x.mp4", convertedExists := true, sourceExists := true,
    sourceSize := 100, convertedSize := 10, firstUnlinkErr := none,
    chmodOk := true, secondUnlinkOk := true }

/-- A cleanup call whose first unlink throws `EPERM` and whose retry
succeeds. -/
def envCleanupEperm : CleanupEnv :=
  { sourcePath := "x.mp4", convertedExists := true, sourceExists := true,
    sourceSize := 100, convertedSize := 10, firstUnlinkErr := some "EPERM",
    chmodOk := true, secondUnlinkOk := true }

/-- A `fixFilePermissions` call without any elevated-privilege environment
identifiers. -/
def envPermPlain : PermEnv :=
  { sudoUser := none, user := some "bob", sudoUid := none, sudoGid := none,
    chownOutcome := .close 0, chmodOk := true }

/-- A `fixFilePermissions` call under sudo whose `chown` exits non-zero. -/
def envPermChownFails : PermEnv :=
  { sudoUser := some "bob", user := some "root", sudoUid := some "501",
    sudoGid := some "20", chownOutcome := .close 1, chmodOk := true }

/-! ## Helper lemmas -/

theorem waitFrom_eq_none_iff (polls : Nat → List Wallpaper) :
    ∀ r a, waitFrom polls a r = none ↔ ∀ i, i < r → polls (a + i) = [] := by
  intro r
  induction r with
  | zero => intro a; simp [waitFrom]
  | succ r ih =>
    intro a
    unfold waitFrom
    cases h : polls a with
    | nil =>
      rw [ih (a + 1)]
      constructor
      · intro hall i hi
        cases i with
        | zero => simpa using h
        | succ j =>
          have hj : j < r := by omega
          have := hall j hj
          have harith : a + 1 + j = a + (j + 1) := by omega
          rwa [harith] at this
      · intro hall i hi
        have harith : a + 1 + i = a + (i + 1) := by omega
        rw [harith]
        exact hall (i + 1) (by omega)
    | cons w tail =>
      simp only
      constructor
      · intro hc; exact absurd hc (by simp)
      · intro hall
        have := hall 0 (by omega)
        simp [h] at this

theorem waitForWallpaperSetup_none_iff (polls : Nat → List Wallpaper) :
    waitForWallpaperSetup polls = none ↔
      ∀ i, i < retryAttempts → polls i = [] := by
  unfold waitForWallpaperSetup
  rw [waitFrom_eq_none_iff]
  constructor
  · intro h i hi; simpa using h i hi
  · intro h i hi; simpa using h i hi

theorem selectWallpaperFromList_mem (ws : List Wallpaper) :
    ∀ (answers : List String) (w : Wallpaper),
      (selectWallpaperFromList ws answers).1 = some (some w) → w ∈ ws := by
  intro answers
  induction answers with
  | nil => simp [selectWallpaperFromList]
  | cons a rest ih =>
    intro w
    unfold selectWallpaperFromList
    split
    · simp
    · split
      · intro h
        exact ih w (by simpa using h)
      · split
        · intro h
          simp only [Prod.fst] at h
          have hw := Option.some.inj (Option.some.inj h)
          rw [← hw]
          exact List.get_mem ws _ _
        · intro h
          exact ih w (by simpa using h)

theorem selectWallpaperFromList_events (ws : List Wallpaper) :
    ∀ (answers : List String) (e : Ev),
      e ∈ (selectWallpaperFromList ws answers).2 → e = Ev.selectPrompt := by
  intro answers
  induction answers with
  | nil => simp [selectWallpaperFromList]
  | cons a rest ih =>
    intro e
    unfold selectWallpaperFromList
    split
    · simp
    · split
      · intro h
        simp only [Prod.snd, List.mem_cons] at h
        rcases h with h | h
        · exact h
        · exact ih e h
      · split
        · simp
        · intro h
          simp only [Prod.snd, List.mem_cons] at h
          rcases h with h | h
          · exact h
          · exact ih e h

theorem selectWallpaperFromList_prompt_mem (ws : List Wallpaper)
    (answers : List String) :
    Ev.selectPrompt ∈ (selectWallpaperFromList ws answers).2 := by
  cases answers with
  | nil => simp [selectWallpaperFromList]
  | cons a rest =>
    unfold selectWallpaperFromList
    split
    · simp
    · split
      · simp
      · split
        · simp
        · simp

theorem selectWallpaperFromList_cancel (ws : List Wallpaper) :
    ∀ (answers : List String),
      (selectWallpaperFromList ws answers).1 = some none →
      ∃ a ∈ answers, jsIsCancel a = true := by
  intro answers
  induction answers with
  | nil => simp [selectWallpaperFromList]
  | cons a rest ih =>
    unfold selectWallpaperFromList
    split
    · intro _
      exact ⟨a, by simp, by assumption⟩
    · split
      · intro h
        obtain ⟨b, hb, hc⟩ := ih (by simpa using h)
        exact ⟨b, by simp [hb], hc⟩
      · split
        · simp
        · intro h
          obtain ⟨b, hb, hc⟩ := ih (by simpa using h)
          exact ⟨b, by simp [hb], hc⟩

theorem installWallpaper_installCall_mem (videoPath targetName : String)
    (c v : Bool) :
    Ev.installCall targetName videoPath ∈
      (installWallpaper videoPath targetName c v).2 := by
  unfold installWallpaper
  cases c <;> cases v <;> simp

theorem installWallpaper_true_iff (videoPath targetName : String) (c v : Bool) :
    (installWallpaper videoPath targetName c v).1 = true ↔ c = true ∧ v = true := by
  unfold installWallpaper
  cases c <;> cases v <;> simp

theorem installWallpaper_targetWrite (videoPath targetName : String)
    (c v : Bool) (h : c = true) :
    Ev.targetWrite (pathJoin targetDir targetName) ∈
      (installWallpaper videoPath targetName c v).2 := by
  subst h
  unfold installWallpaper
  cases v <;> simp

theorem createBackup_backupAttempt (w : Wallpaper) (c : Bool) (ts n : String) :
    Ev.backupAttempt n ∈ (createBackup w c ts).2 → n = w.name := by
  unfold createBackup
  cases c <;> simp

theorem extendVideo_isOk (o : FfmpegOutcome) (p : String) :
    (extendVideo o p).isOk = true → extendVideo o p = .ok p := by
  unfold extendVideo
  cases o with
  | close code ex sz =>
    by_cases hc : code = 0 <;> by_cases he : ex = true <;>
      simp_all [ConvResult.isOk]
  | errored m => simp [ConvResult.isOk]

theorem convertWithHEVC_isOk (hw sw : FfmpegOutcome) (inp out : String) :
    ((convertWithHEVC hw sw inp out).1).isOk = true →
    (convertWithHEVC hw sw inp out).1 = .ok out := by
  unfold convertWithHEVC hevcSoftwareAttempt
  cases hw with
  | close code ex sz =>
    by_cases hc : code = 0
    · by_cases he : ex = true <;> simp_all [ConvResult.isOk]
    · by_cases hf : code = 1 ∨ code = 69
      · simp only [hc, if_false, hf, if_true]
        cases sw with
        | close code2 ex2 sz2 =>
          by_cases hc2 : code2 = 0 <;> by_cases he2 : ex2 = true <;>
            simp_all [ConvResult.isOk]
        | errored m2 => simp [ConvResult.isOk]
      · simp_all [ConvResult.isOk]
  | errored m =>
    by_cases hv : jsIncludes m "videotoolbox" = true
    · simp only [hv, if_true]
      cases sw with
      | close code2 ex2 sz2 =>
        by_cases hc2 : code2 = 0 <;> by_cases he2 : ex2 = true <;>
          simp_all [ConvResult.isOk]
      | errored m2 => simp [ConvResult.isOk]
    · simp_all [ConvResult.isOk]

theorem backupThenInstall_backupAttempt (w : Wallpaper) (env : SetupEnv)
    (n : String) :
    Ev.backupAttempt n ∈ (backupThenInstall w env).2 → n = w.name := by
  unfold backupThenInstall createBackup installWallpaper
  cases hb : env.backupCopyOk <;> cases hc : env.installCopyOk <;>
    cases hv : env.installVerifyOk <;> simp

theorem backupThenInstall_installCall (w : Wallpaper) (env : SetupEnv) :
    Ev.installCall w.name env.videoPath ∈ (backupThenInstall w env).2 := by
  unfold backupThenInstall
  rw [List.mem_append]
  exact Or.inr (installWallpaper_installCall_mem _ _ _ _)

theorem backupThenInstall_true_iff (w : Wallpaper) (env : SetupEnv) :
    (backupThenInstall w env).1 = true ↔
      env.installCopyOk = true ∧ env.installVerifyOk = true := by
  unfold backupThenInstall
  exact installWallpaper_true_iff _ _ _ _

theorem backupThenInstall_targetWrite (w : Wallpaper) (env : SetupEnv)
    (h : env.installCopyOk = true) :
    Ev.targetWrite (pathJoin targetDir w.name) ∈ (backupThenInstall w env).2 := by
  unfold backupThenInstall
  rw [List.mem_append]
  exact Or.inr (installWallpaper_targetWrite _ _ _ _ h)

theorem backupThenInstall_no_selectPrompt (w : Wallpaper) (env : SetupEnv) :
    Ev.selectPrompt ∉ (backupThenInstall w env).2 := by
  unfold backupThenInstall createBackup installWallpaper
  cases hb : env.backupCopyOk <;> cases hc : env.installCopyOk <;>
    cases hv : env.installVerifyOk <;> simp

theorem backupThenInstall_no_confirmPrompt (w : Wallpaper) (env : SetupEnv)
    (n : String) :
    Ev.confirmPrompt n ∉ (backupThenInstall w env).2 := by
  unfold backupThenInstall createBackup installWallpaper
  cases hb : env.backupCopyOk <;> cases hc : env.installCopyOk <;>
    cases hv : env.installVerifyOk <;> simp

/-! ## Claim C1 -/

/-- Claim C1 as stated is false of the code: in this concrete run of the
replace flow the backup copy fails (`backupCopyOk = false`; the trace shows
the attempted copy without its completion), and yet the installer is invoked
for the selected asset, the target file is written, and the run reports
success. -/
theorem c1_counterexample :
    envBackupFails.backupCopyOk = false ∧
    Ev.backupAttempt "a.mov" ∈ (setupWallpaper envBackupFails).2 ∧
    Ev.backupDone "a.mov" ∉ (setupWallpaper envBackupFails).2 ∧
    Ev.installCall "a.mov" "v.mov" ∈ (setupWallpaper envBackupFails).2 ∧
    Ev.targetWrite (pathJoin targetDir "a.mov") ∈ (setupWallpaper envBackupFails).2 ∧
    (setupWallpaper envBackupFails).1 = some true := by decide

/-- Claim C1 (amended): a failure of the backup copy does not gate the
replace.  `createBackup` catches the error and returns null, `setupWallpaper`
never inspects that result, and every run that attempts a backup of an asset
goes on to invoke the installer for that same asset name — whether or not the
copy succeeded. -/
theorem c1_amended (env : SetupEnv) (n : String) :
    Ev.backupAttempt n ∈ (setupWallpaper env).2 →
    Ev.installCall n env.videoPath ∈ (setupWallpaper env).2 := by
  obtain ⟨acc, ini, polls, answers, confirmAnswer, vso, bok, iok, ivok, vp, ts⟩ := env
  cases acc with
  | false => simp [setupWallpaper]
  | true =>
    cases ini with
    | nil =>
      cases hwait : waitForWallpaperSetup polls with
      | none => simp [setupWallpaper, hwait]
      | some w =>
        simp only [setupWallpaper, hwait]
        simp
        intro h
        have hn := backupThenInstall_backupAttempt w _ n h
        subst hn
        exact backupThenInstall_installCall w _
    | cons w ws =>
      cases ws with
      | nil =>
        cases vso with
        | false => simp [setupWallpaper, getUserConfirmation]
        | true =>
          cases hyes : jsIsYes confirmAnswer with
          | false => simp [setupWallpaper, getUserConfirmation, hyes]
          | true =>
            simp only [setupWallpaper, getUserConfirmation, hyes]
            simp
            intro h
            have hn := backupThenInstall_backupAttempt w _ n h
            subst hn
            exact backupThenInstall_installCall w _
      | cons w2 rest =>
        cases hsel : (selectWallpaperFromList (w :: w2 :: rest) answers).1 with
        | none =>
          simp only [setupWallpaper, hsel]
          simp
          intro h
          exact absurd (selectWallpaperFromList_events _ _ _ h) (by simp)
        | some o =>
          cases o with
          | none =>
            simp only [setupWallpaper, hsel]
            simp
            intro h
            exact absurd (selectWallpaperFromList_events _ _ _ h) (by simp)
          | some wsel =>
            cases vso with
            | false =>
              simp only [setupWallpaper, hsel, getUserConfirmation]
              simp
              intro h
              exact absurd (selectWallpaperFromList_events _ _ _ h) (by simp)
            | true =>
              cases hyes : jsIsYes confirmAnswer with
              | false =>
                simp only [setupWallpaper, hsel, getUserConfirmation, hyes]
                simp
                intro h
                exact absurd (selectWallpaperFromList_events _ _ _ h) (by simp)
              | true =>
                simp only [setupWallpaper, hsel, getUserConfirmation, hyes]
                simp
                intro h
                rcases h with h | h
                · exact absurd (selectWallpaperFromList_events _ _ _ h) (by simp)
                · have hn := backupThenInstall_backupAttempt wsel _ n h
                  subst hn
                  exact Or.inr (backupThenInstall_installCall wsel _)

/-- Witness for the amended claim C1 at the concrete failing-backup run. -/
theorem c1_amended_witness :
    Ev.installCall "a.mov" "v.mov" ∈ (setupWallpaper envBackupFails).2 :=
  c1_amended envBackupFails "a.mov" (by decide)

/-! ## Claim C2 -/

/-- Claim C2: for every run of `setupWallpaper` that reports success, the
installer was invoked with the converted video path and a target name equal
to the name of an asset selected from the existing inventory (the initial
listing, or the asset detected by the seed-wait poll when the directory was
empty), and the file written in the OS target directory is the join of the
target directory with exactly that name — no new filename is invented. -/
theorem c2_filename_preserved (env : SetupEnv) :
    (setupWallpaper env).1 = some true →
    ∃ n, Ev.installCall n env.videoPath ∈ (setupWallpaper env).2 ∧
         Ev.targetWrite (pathJoin targetDir n) ∈ (setupWallpaper env).2 ∧
         ((∃ w ∈ env.initial, n = w.name) ∨
          (env.initial = [] ∧
           ∃ w, waitForWallpaperSetup env.polls = some w ∧ n = w.name)) := by
  obtain ⟨acc, ini, polls, answers, confirmAnswer, vso, bok, iok, ivok, vp, ts⟩ := env
  cases acc with
  | false => simp [setupWallpaper]
  | true =>
    cases ini with
    | nil =>
      cases hwait : waitForWallpaperSetup polls with
      | none => simp [setupWallpaper, hwait]
      | some w =>
        simp only [setupWallpaper, hwait]
        intro hres
        have hres' := backupThenInstall_true_iff w _ |>.mp (by simpa using hres)
        refine ⟨w.name, ?_, ?_, Or.inr ⟨trivial, w, rfl, rfl⟩⟩
        · exact List.mem_cons_of_mem _ (backupThenInstall_installCall w _)
        · exact List.mem_cons_of_mem _ (backupThenInstall_targetWrite w _ hres'.1)
    | cons w ws =>
      cases ws with
      | nil =>
        cases vso with
        | false => simp [setupWallpaper, getUserConfirmation]
        | true =>
          cases hyes : jsIsYes confirmAnswer with
          | false => simp [setupWallpaper, getUserConfirmation, hyes]
          | true =>
            simp only [setupWallpaper, getUserConfirmation, hyes]
            intro hres
            have hres' := backupThenInstall_true_iff w _ |>.mp (by simpa using hres)
            refine ⟨w.name, ?_, ?_, Or.inl ⟨w, by simp, rfl⟩⟩
            · exact List.mem_append_right _ (backupThenInstall_installCall w _)
            · exact List.mem_append_right _ (backupThenInstall_targetWrite w _ hres'.1)
      | cons w2 rest =>
        cases hsel : (selectWallpaperFromList (w :: w2 :: rest) answers).1 with
        | none => simp [setupWallpaper, hsel]
        | some o =>
          cases o with
          | none => simp [setupWallpaper, hsel]
          | some wsel =>
            cases vso with
            | false => simp [setupWallpaper, hsel, getUserConfirmation]
            | true =>
              cases hyes : jsIsYes confirmAnswer with
              | false => simp [setupWallpaper, hsel, getUserConfirmation, hyes]
              | true =>
                simp only [setupWallpaper, hsel, getUserConfirmation, hyes]
                intro hres
                have hres' := backupThenInstall_true_iff wsel _ |>.mp (by simpa using hres)
                have hmem := selectWallpaperFromList_mem _ _ _ hsel
                refine ⟨wsel.name, ?_, ?_, Or.inl ⟨wsel, hmem, rfl⟩⟩
                · exact List.mem_append_right _ (backupThenInstall_installCall wsel _)
                · exact List.mem_append_right _ (backupThenInstall_targetWrite wsel _ hres'.1)

/-- Witness for claim C2 at the concrete fully successful single-asset run. -/
theorem c2_witness :
    ∃ n, Ev.installCall n envHappy.videoPath ∈ (setupWallpaper envHappy).2 ∧
         Ev.targetWrite (pathJoin targetDir n) ∈ (setupWallpaper envHappy).2 ∧
         ((∃ w ∈ envHappy.initial, n = w.name) ∨
          (envHappy.initial = [] ∧
           ∃ w, waitForWallpaperSetup envHappy.polls = some w ∧ n = w.name)) :=
  c2_filename_preserved envHappy (by decide)

/-! ## Claim C3 -/

/-- Claim C3: an initial hardware-encode failure with exit code 1 or 69, or a
spawn error mentioning `videotoolbox`, makes `convertWithHEVC` spawn exactly
one further ffmpeg invocation — with the software profile (`libx265` codec,
`-profile:v main10`, `-level 5.1`, and the explicit `-preset medium`) — and
the overall result is exactly the result of that software attempt; any other
non-zero exit code or spawn error is terminal after the single hardware
invocation, and the software attempt itself never retries: any failure of it
is the conversion's failure. -/
theorem c3_hardware_fallback (inp out : String) (sw : FfmpegOutcome)
    (c : Int) (ex : Bool) (sz : Nat) (m : String) :
    ((c = 1 ∨ c = 69) →
      convertWithHEVC (.close c ex sz) sw inp out =
        (hevcSoftwareAttempt sw out,
         [hevcArgs false inp out, hevcArgs true inp out])) ∧
    (c ≠ 0 → c ≠ 1 → c ≠ 69 →
      convertWithHEVC (.close c ex sz) sw inp out =
        (.err ("FFmpeg HEVC conversion failed with code " ++ toString c),
         [hevcArgs false inp out])) ∧
    (jsIncludes m "videotoolbox" = true →
      convertWithHEVC (.errored m) sw inp out =
        (hevcSoftwareAttempt sw out,
         [hevcArgs false inp out, hevcArgs true inp out])) ∧
    (jsIncludes m "videotoolbox" = false →
      convertWithHEVC (.errored m) sw inp out =
        (.err ("FFmpeg error: " ++ m), [hevcArgs false inp out])) ∧
    (∀ c2 ex2 sz2, c2 ≠ 0 →
      (hevcSoftwareAttempt (.close c2 ex2 sz2) out).isOk = false) ∧
    (∀ m2, (hevcSoftwareAttempt (.errored m2) out).isOk = false) ∧
    "libx265" ∈ hevcArgs true inp out ∧
    (∃ l r, hevcArgs true inp out = l ++ ["-profile:v", "main10"] ++ r) ∧
    (∃ l r, hevcArgs true inp out = l ++ ["-level", "5.1"] ++ r) ∧
    (∃ l r, hevcArgs true inp out = l ++ ["-preset", "medium"] ++ r) := by
  refine ⟨?_, ?_, ?_, ?_, ?_, ?_, ?_, ?_, ?_, ?_⟩
  · intro h
    have hc0 : ¬ c = 0 := by rcases h with h | h <;> omega
    simp only [convertWithHEVC]
    rw [if_neg hc0, if_pos h]
  · intro h0 h1 h69
    have hns : ¬ (c = 1 ∨ c = 69) := by tauto
    simp only [convertWithHEVC]
    rw [if_neg h0, if_neg hns]
  · intro hv
    simp only [convertWithHEVC]
    rw [if_pos hv]
  · intro hv
    simp only [convertWithHEVC]
    rw [if_neg (by simp [hv])]
  · intro c2 ex2 sz2 h
    simp [hevcSoftwareAttempt, h, ConvResult.isOk]
  · intro m2
    simp [hevcSoftwareAttempt, ConvResult.isOk]
  · simp [hevcArgs]
  · exact ⟨["-i", inp, "-c:v", "libx265", "-c:a", "aac", "-tag:v", "hvc1",
            "-movflags", "+faststart", "-pix_fmt", "yuv420p10le", "-r", "60",
            "-vf", "scale=3840:2160:flags=lanczos", "-b:v", "50M",
            "-maxrate", "60M", "-bufsize", "100M"],
           ["-level", "5.1", "-preset", "medium", "-progress", "pipe:1", "-y", out],
           rfl⟩
  · exact ⟨["-i", inp, "-c:v", "libx265", "-c:a", "aac", "-tag:v", "hvc1",
            "-movflags", "+faststart", "-pix_fmt", "yuv420p10le", "-r", "60",
            "-vf", "scale=3840:2160:flags=lanczos", "-b:v", "50M",
            "-maxrate", "60M", "-bufsize", "100M", "-profile:v", "main10"],
           ["-preset", "medium", "-progress", "pipe:1", "-y", out],
           rfl⟩
  · exact ⟨["-i", inp, "-c:v", "libx265", "-c:a", "aac", "-tag:v", "hvc1",
            "-movflags", "+faststart", "-pix_fmt", "yuv420p10le", "-r", "60",
            "-vf", "scale=3840:2160:flags=lanczos", "-b:v", "50M",
            "-maxrate", "60M", "-bufsize", "100M", "-profile:v", "main10",
            "-level", "5.1"],
           ["-progress", "pipe:1", "-y", out],
           rfl⟩

/-- Witness for claim C3 at concrete exit codes: code 1 retries and adopts
the software result, code 2 is terminal after one invocation, and a
`videotoolbox` spawn error retries. -/
theorem c3_witness :
    convertWithHEVC (.close 1 false 0) (.close 0 true 7) "in.mp4" "out.mov" =
      (hevcSoftwareAttempt (.close 0 true 7) "out.mov",
       [hevcArgs false "in.mp4" "out.mov", hevcArgs true "in.mp4" "out.mov"]) ∧
    convertWithHEVC (.close 2 false 0) (.close 0 true 7) "in.mp4" "out.mov" =
      (.err ("FFmpeg HEVC conversion failed with code " ++ toString (2 : Int)),
       [hevcArgs false "in.mp4" "out.mov"]) ∧
    convertWithHEVC (.errored "spawn hevc_videotoolbox failed")
        (.close 0 true 7) "in.mp4" "out.mov" =
      (hevcSoftwareAttempt (.close 0 true 7) "out.mov",
       [hevcArgs false "in.mp4" "out.mov", hevcArgs true "in.mp4" "out.mov"]) := by
  refine ⟨?_, ?_, ?_⟩
  · exact (c3_hardware_fallback "in.mp4" "out.mov" (.close 0 true 7) 1 false 0 "x").1
      (Or.inl rfl)
  · exact (c3_hardware_fallback "in.mp4" "out.mov" (.close 0 true 7) 2 false 0 "x").2.1
      (by decide) (by decide) (by decide)
  · exact (c3_hardware_fallback "in.mp4" "out.mov" (.close 0 true 7) 1 false 0
      "spawn hevc_videotoolbox failed").2.2.1 (by decide)

/-! ## Claim C4 -/

/-- Claim C4: the source file is deleted only when the converted output
exists, its size is at least a tenth of the source's size, and the source
extension lower-cases to `.mp4`; a first-unlink failure whose error code is
neither `EPERM` nor `EACCES` always leaves the source in place; and under the
guards, a first-unlink failure with `EPERM` or `EACCES` leads to exactly one
retry after the chmod, whose outcome (chmod success and second unlink
success) decides deletion. -/
theorem c4_cleanup_policy (env : CleanupEnv) :
    (cleanupSourceFile env = true →
      env.convertedExists = true ∧
      env.sourceSize ≤ 10 * env.convertedSize ∧
      jsToLower (extname env.sourcePath) = ".mp4") ∧
    (∀ code, env.firstUnlinkErr = some code →
      code ≠ "EPERM" → code ≠ "EACCES" →
      cleanupSourceFile env = false) ∧
    (env.convertedExists = true → env.sourceExists = true →
      env.sourceSize ≤ 10 * env.convertedSize →
      jsToLower (extname env.sourcePath) = ".mp4" →
      ∀ code, env.firstUnlinkErr = some code →
        (code = "EPERM" ∨ code = "EACCES") →
        cleanupSourceFile env = (env.chmodOk && env.secondUnlinkOk)) := by
  refine ⟨?_, ?_, ?_⟩
  · intro h
    by_cases h1 : env.convertedExists = false
    · simp [cleanupSourceFile, h1] at h
    · by_cases h2 : env.sourceExists = false
      · simp [cleanupSourceFile, h1, h2] at h
      · by_cases h3 : 10 * env.convertedSize < env.sourceSize
        · simp [cleanupSourceFile, h1, h2, h3] at h
        · by_cases h4 : jsToLower (extname env.sourcePath) = ".mp4"
          · exact ⟨by simpa using h1, by omega, h4⟩
          · simp [cleanupSourceFile, h1, h2, h3, h4] at h
  · intro code hcode hne1 hne2
    unfold cleanupSourceFile
    rw [hcode]
    repeat' split
    all_goals simp_all
  · intro h1 h2 h3 h4 code hcode hperm
    have h3' : ¬ (10 * env.convertedSize < env.sourceSize) := by omega
    unfold cleanupSourceFile
    rw [hcode, if_neg (by simp [h1]), if_neg (by simp [h2]), if_neg h3',
        if_pos h4]
    dsimp only
    rw [if_pos hperm]
    cases env.chmodOk <;> simp

/-- Witness for claim C4: the all-guards-pass run deletes the source, and
the `EPERM` run's outcome is decided by the chmod-and-retry pair. -/
theorem c4_witness :
    (envCleanupOk.convertedExists = true ∧
     envCleanupOk.sourceSize ≤ 10 * envCleanupOk.convertedSize ∧
     jsToLower (extname envCleanupOk.sourcePath) = ".mp4") ∧
    cleanupSourceFile envCleanupEperm =
      (envCleanupEperm.chmodOk && envCleanupEperm.secondUnlinkOk) := by
  refine ⟨?_, ?_⟩
  · exact (c4_cleanup_policy envCleanupOk).1 (by decide)
  · exact (c4_cleanup_policy envCleanupEperm).2.2 (by decide) (by decide)
      (by decide) (by decide) "EPERM" (by decide) (Or.inl rfl)

/-! ## Claim C5 -/

/-- Claim C5 as stated is false of the code: after a zero exit code both
`extendVideo` and `convertWithHEVC` verify only that the output file exists
(`fs.existsSync`), never its size, so a zero-byte output that exists (the
outcome's size field is 0 here) is reported as a success. -/
theorem c5_counterexample :
    extendVideo (.close 0 true 0) "o_extended.mp4" = .ok "o_extended.mp4" ∧
    (convertWithHEVC (.close 0 true 0) (.close 0 true 0) "i.mp4" "o.mov").1 =
      .ok "o.mov" := by decide

/-- Claim C5 (amended): after a zero exit code, `extendVideo` and
`convertWithHEVC` succeed only if the expected output file exists, and a
missing output despite the zero exit code is reported as a failure (with no
retry); output existence is the only check performed — the size of the
output, zero-byte included, is never consulted. -/
theorem c5_amended (c : Int) (ex : Bool) (sz : Nat) (inp out : String)
    (sw : FfmpegOutcome) :
    (∀ p, extendVideo (.close c ex sz) out = .ok p →
      c = 0 ∧ ex = true ∧ p = out) ∧
    (ex = false →
      extendVideo (.close 0 ex sz) out =
        .err "Extended video file not found after processing") ∧
    (∀ p, (convertWithHEVC (.close 0 ex sz) sw inp out).1 = .ok p →
      ex = true ∧ p = out) ∧
    (ex = false →
      convertWithHEVC (.close 0 ex sz) sw inp out =
        (.err "Conversion completed but output file not found",
         [hevcArgs false inp out])) ∧
    (∀ p, hevcSoftwareAttempt (.close 0 ex sz) out = .ok p →
      ex = true ∧ p = out) := by
  refine ⟨?_, ?_, ?_, ?_, ?_⟩
  · intro p h
    unfold extendVideo at h
    dsimp only at h
    by_cases hc : c = 0
    · by_cases he : ex = true
      · rw [if_pos hc, if_pos he] at h
        exact ⟨hc, he, (ConvResult.ok.inj h).symm⟩
      · rw [if_pos hc, if_neg he] at h
        exact absurd h (by simp)
    · rw [if_neg hc] at h
      exact absurd h (by simp)
  · intro he
    subst he
    unfold extendVideo
    dsimp only
    rw [if_pos rfl, if_neg (by simp)]
  · intro p h
    unfold convertWithHEVC at h
    dsimp only at h
    rw [if_pos rfl] at h
    by_cases he : ex = true
    · rw [if_pos he] at h
      exact ⟨he, (ConvResult.ok.inj h).symm⟩
    · rw [if_neg he] at h
      exact absurd h (by simp)
  · intro he
    subst he
    unfold convertWithHEVC
    dsimp only
    rw [if_pos rfl, if_neg (by simp)]
  · intro p h
    unfold hevcSoftwareAttempt at h
    dsimp only at h
    rw [if_pos rfl] at h
    by_cases he : ex = true
    · rw [if_pos he] at h
      exact ⟨he, (ConvResult.ok.inj h).symm⟩
    · rw [if_neg he] at h
      exact absurd h (by simp)

/-- Witness for the amended claim C5: a zero exit with a missing output is a
failure for both the extender and the transcoder. -/
theorem c5_amended_witness :
    extendVideo (.close 0 false 9) "o_extended.mp4" =
      .err "Extended video file not found after processing" ∧
    convertWithHEVC (.close 0 false 9) (.close 0 true 9) "i.mp4" "o.mov" =
      (.err "Conversion completed but output file not found",
       [hevcArgs false "i.mp4" "o.mov"]) := by
  refine ⟨?_, ?_⟩
  · exact (c5_amended 0 false 9 "i.mp4" "o_extended.mp4" (.close 0 true 9)).2.1 rfl
  · exact (c5_amended 0 false 9 "i.mp4" "o.mov" (.close 0 true 9)).2.2.2.1 rfl

/-! ## Claim C6 -/

/-- Claim C6 as stated is false of the code in its distinctness part: the
user-decline run and the failure run (directory access denied, whose thrown
error is caught by `setupWallpaper`) both return the same outcome `false`;
the cancellation outcome is not distinct from the failure outcome.  The
decline run's full trace is the single confirmation prompt, so no backup and
no target write occurred. -/
theorem c6_counterexample :
    (setupWallpaper envDecline).1 = some false ∧
    (setupWallpaper envDecline).2 = [Ev.confirmPrompt "a.mov"] ∧
    (setupWallpaper envNoAccess).1 = some false ∧
    (setupWallpaper envDecline).1 = (setupWallpaper envNoAccess).1 := by decide

/-- Claim C6 (amended): declining the confirmation, or entering the cancel
token at the selection prompt, short-circuits the pipeline — the run's whole
trace consists of prompts only, so no backup is created and no file in the
target directory is modified — and `setupWallpaper` returns `false`, the
same value it returns for failures. -/
theorem c6_amended (env : SetupEnv) :
    (∀ w, env.hasAccess = true → env.initial = [w] → env.videoStatOk = true →
      jsIsYes env.confirmAnswer = false →
      setupWallpaper env = (some false, [Ev.confirmPrompt w.name])) ∧
    (env.hasAccess = true → 2 ≤ env.initial.length →
      (selectWallpaperFromList env.initial env.answers).1 = some none →
      setupWallpaper env =
        (some false, (selectWallpaperFromList env.initial env.answers).2) ∧
      ∀ e ∈ (selectWallpaperFromList env.initial env.answers).2,
        e = Ev.selectPrompt) ∧
    (∀ w, env.hasAccess = true → 2 ≤ env.initial.length →
      (selectWallpaperFromList env.initial env.answers).1 = some (some w) →
      env.videoStatOk = true → jsIsYes env.confirmAnswer = false →
      setupWallpaper env =
        (some false,
         (selectWallpaperFromList env.initial env.answers).2 ++
           [Ev.confirmPrompt w.name])) := by
  obtain ⟨acc, ini, polls, answers, confirmAnswer, vso, bok, iok, ivok, vp, ts⟩ := env
  refine ⟨?_, ?_, ?_⟩
  · intro w hacc hini hvs hyes
    subst hacc; subst hini; subst hvs
    simp [setupWallpaper, getUserConfirmation, hyes]
  · intro hacc hlen hsel
    subst hacc
    cases ini with
    | nil => simp at hlen
    | cons w1 ws =>
      cases ws with
      | nil => simp at hlen
      | cons w2 rest =>
        exact ⟨by simp [setupWallpaper, hsel],
               fun e he => selectWallpaperFromList_events _ _ e he⟩
  · intro w hacc hlen hsel hvs hyes
    subst hacc; subst hvs
    cases ini with
    | nil => simp at hlen
    | cons w1 ws =>
      cases ws with
      | nil => simp at hlen
      | cons w2 rest =>
        simp [setupWallpaper, hsel, getUserConfirmation, hyes]

/-- Witness for the amended claim C6 at the concrete decline and
selection-cancel runs. -/
theorem c6_amended_witness :
    setupWallpaper envDecline = (some false, [Ev.confirmPrompt "a.mov"]) ∧
    setupWallpaper envSelectCancel =
      (some false,
       (selectWallpaperFromList envSelectCancel.initial envSelectCancel.answers).2) := by
  refine ⟨?_, ?_⟩
  · exact (c6_amended envDecline).1 ⟨"a.mov", pathJoin targetDir "a.mov", 5⟩
      (by decide) (by decide) (by decide) (by decide)
  · exact ((c6_amended envSelectCancel).2.1 (by decide) (by decide) (by decide)).1

/-! ## Claim C7 -/

/-- Claim C7: the seed-wait poll runs `retryAttempts = 30` scans at
`retryInterval = 1000` ms and times out exactly when every scan comes back
empty; an empty initial inventory enters the seed-wait (and the timeout makes
the run fail); a one-element inventory goes straight to the confirmation
prompt with no selection prompt ever shown; a two-or-more-element inventory
shows a confirmation prompt only for an asset resolved by the numeric
selection, and the selection prompt appears in the trace strictly before the
confirmation prompt. -/
theorem c7_cardinality_branching (env : SetupEnv) (ps : Nat → List Wallpaper) :
    retryAttempts = 30 ∧ retryInterval = 1000 ∧
    (waitForWallpaperSetup ps = none ↔ ∀ i, i < retryAttempts → ps i = []) ∧
    (env.hasAccess = true → env.initial = [] →
      Ev.seedWait ∈ (setupWallpaper env).2 ∧
      (waitForWallpaperSetup env.polls = none →
        setupWallpaper env = (some false, [Ev.seedWait]))) ∧
    (∀ w, env.hasAccess = true → env.initial = [w] →
      Ev.selectPrompt ∉ (setupWallpaper env).2 ∧
      (env.videoStatOk = true →
        Ev.confirmPrompt w.name ∈ (setupWallpaper env).2)) ∧
    (∀ n, env.hasAccess = true → 2 ≤ env.initial.length →
      Ev.confirmPrompt n ∈ (setupWallpaper env).2 →
      ∃ w, (selectWallpaperFromList env.initial env.answers).1 = some (some w) ∧
        n = w.name ∧
        ∃ pre post,
          (setupWallpaper env).2 = pre ++ Ev.confirmPrompt n :: post ∧
          Ev.selectPrompt ∈ pre) := by
  refine ⟨rfl, rfl, waitForWallpaperSetup_none_iff ps, ?_, ?_, ?_⟩
  · intro hacc hini
    constructor
    · cases hwait : waitForWallpaperSetup env.polls with
      | none =>
        have htr : (setupWallpaper env).2 = [Ev.seedWait] := by
          simp [setupWallpaper, hacc, hini, hwait]
        rw [htr]; simp
      | some w =>
        have htr : (setupWallpaper env).2 =
            Ev.seedWait :: (backupThenInstall w env).2 := by
          simp [setupWallpaper, hacc, hini, hwait]
        rw [htr]; simp
    · intro hwait
      simp [setupWallpaper, hacc, hini, hwait]
  · intro w hacc hini
    cases hvs : env.videoStatOk with
    | false =>
      have htr : (setupWallpaper env).2 = [] := by
        simp [setupWallpaper, hacc, hini, getUserConfirmation, hvs]
      rw [htr]
      exact ⟨by simp, fun hc => by simp [hvs] at hc⟩
    | true =>
      cases hyes : jsIsYes env.confirmAnswer with
      | false =>
        have htr : (setupWallpaper env).2 = [Ev.confirmPrompt w.name] := by
          simp [setupWallpaper, hacc, hini, getUserConfirmation, hvs, hyes]
        rw [htr]
        exact ⟨by simp, fun _ => by simp⟩
      | true =>
        have htr : (setupWallpaper env).2 =
            Ev.confirmPrompt w.name :: (backupThenInstall w env).2 := by
          simp [setupWallpaper, hacc, hini, getUserConfirmation, hvs, hyes]
        rw [htr]
        refine ⟨?_, fun _ => by simp⟩
        intro hmem
        rcases List.mem_cons.mp hmem with hc | hc
        · simp at hc
        · exact backupThenInstall_no_selectPrompt w env hc
  · intro n hacc hlen h
    rcases hini : env.initial with _ | ⟨w1, ws⟩
    · rw [hini] at hlen; simp at hlen
    · rcases hws : ws with _ | ⟨w2, rest⟩
      · rw [hini, hws] at hlen; simp at hlen
      · rw [hws] at hini
        cases hsel : (selectWallpaperFromList (w1 :: w2 :: rest) env.answers).1 with
        | none =>
          have htr : (setupWallpaper env).2 =
              (selectWallpaperFromList (w1 :: w2 :: rest) env.answers).2 := by
            simp [setupWallpaper, hacc, hini, hsel]
          rw [htr] at h
          exact absurd (selectWallpaperFromList_events _ _ _ h) (by simp)
        | some o =>
          cases o with
          | none =>
            have htr : (setupWallpaper env).2 =
                (selectWallpaperFromList (w1 :: w2 :: rest) env.answers).2 := by
              simp [setupWallpaper, hacc, hini, hsel]
            rw [htr] at h
            exact absurd (selectWallpaperFromList_events _ _ _ h) (by simp)
          | some wsel =>
            cases hvs : env.videoStatOk with
            | false =>
              have htr : (setupWallpaper env).2 =
                  (selectWallpaperFromList (w1 :: w2 :: rest) env.answers).2 := by
                simp [setupWallpaper, hacc, hini, hsel, getUserConfirmation, hvs]
              rw [htr] at h
              exact absurd (selectWallpaperFromList_events _ _ _ h) (by simp)
            | true =>
              cases hyes : jsIsYes env.confirmAnswer with
              | false =>
                have htr : (setupWallpaper env).2 =
                    (selectWallpaperFromList (w1 :: w2 :: rest) env.answers).2 ++
                      [Ev.confirmPrompt wsel.name] := by
                  simp [setupWallpaper, hacc, hini, hsel, getUserConfirmation,
                        hvs, hyes]
                rw [htr] at h
                rcases List.mem_append.mp h with hc | hc
                · exact absurd (selectWallpaperFromList_events _ _ _ hc) (by simp)
                · have hn : n = wsel.name := by simpa using hc
                  subst hn
                  exact ⟨wsel, rfl, rfl,
                         (selectWallpaperFromList (w1 :: w2 :: rest) env.answers).2,
                         [], htr, selectWallpaperFromList_prompt_mem _ _⟩
              | true =>
                have htr : (setupWallpaper env).2 =
                    (selectWallpaperFromList (w1 :: w2 :: rest) env.answers).2 ++
                      Ev.confirmPrompt wsel.name ::
                        (backupThenInstall wsel env).2 := by
                  simp [setupWallpaper, hacc, hini, hsel, getUserConfirmation,
                        hvs, hyes]
                rw [htr] at h
                rcases List.mem_append.mp h with hc | hc
                · exact absurd (selectWallpaperFromList_events _ _ _ hc) (by simp)
                · rcases List.mem_cons.mp hc with hc2 | hc2
                  · have hn : n = wsel.name := by simpa using hc2
                    subst hn
                    exact ⟨wsel, rfl, rfl,
                           (selectWallpaperFromList (w1 :: w2 :: rest) env.answers).2,
                           (backupThenInstall wsel env).2, htr,
                           selectWallpaperFromList_prompt_mem _ _⟩
                  · exact absurd hc2 (backupThenInstall_no_confirmPrompt wsel env n)

/-- Witness for claim C7: the all-empty-polls run times out to a failed run,
the single-asset run never shows a selection prompt, and the two-asset run's
confirmation is for the numerically selected asset, after a selection
prompt. -/
theorem c7_witness :
    setupWallpaper envSeedTimeout = (some false, [Ev.seedWait]) ∧
    Ev.selectPrompt ∉ (setupWallpaper envHappy).2 ∧
    (∃ w, (selectWallpaperFromList envTwoAssets.initial envTwoAssets.answers).1 =
            some (some w) ∧
      "b.mov" = w.name ∧
      ∃ pre post,
        (setupWallpaper envTwoAssets).2 = pre ++ Ev.confirmPrompt "b.mov" :: post ∧
        Ev.selectPrompt ∈ pre) := by
  refine ⟨?_, ?_, ?_⟩
  · exact ((c7_cardinality_branching envSeedTimeout (fun _ => [])).2.2.2.1
      (by decide) (by decide)).2 (by decide)
  · exact ((c7_cardinality_branching envHappy (fun _ => [])).2.2.2.2.1
      ⟨"a.mov", pathJoin targetDir "a.mov", 5⟩ (by decide) (by decide)).1
  · exact (c7_cardinality_branching envTwoAssets (fun _ => [])).2.2.2.2.2
      "b.mov" (by decide) (by decide) (by decide)

/-! ## Claim C8 -/

/-- Claim C8: when the probed duration is at least the configured minimum,
`convertToMov` never invokes the extender and no extension artifact is
produced or unlinked; when it is shorter, the extender is invoked with an
argument list that loops the stream (`-stream_loop -1`), copies it without
re-encoding (`-c copy`) and truncates exactly at the minimum duration
(`-t 60`), and after a successful transcode the intermediate extended file is
unlinked by the caller, after the transcode and before the source cleanup. -/
theorem c8_duration_gate (env : ConvertToMovEnv) (d : ℚ) :
    (env.movExists = false → env.durationProbe = some d →
      ¬ d < (minRecommendedDuration : ℚ) →
      (∀ args, DEv.extendCall args ∉ (convertToMov env).2) ∧
      (∀ p, DEv.unlinkIntermediate p ∉ (convertToMov env).2)) ∧
    (env.movExists = false → env.durationProbe = some d →
      d < (minRecommendedDuration : ℚ) →
      env.extendProbeOk = true →
      (extendVideo env.extendOutcome
        (jsReplaceLastExt env.inputPath "_extended.mp4")).isOk = true →
      ((convertWithHEVC env.hwOutcome env.swOutcome
        (jsReplaceLastExt env.inputPath "_extended.mp4")
        (jsReplaceLastExt env.inputPath ".mov")).1).isOk = true →
      jsReplaceLastExt env.inputPath "_extended.mp4" ≠ env.inputPath →
      (convertToMov env).2 =
        [DEv.probe env.inputPath,
         DEv.extendCall (extendArgs env.inputPath minRecommendedDuration
           (jsReplaceLastExt env.inputPath "_extended.mp4")),
         DEv.convertCall (jsReplaceLastExt env.inputPath "_extended.mp4")
           (jsReplaceLastExt env.inputPath ".mov"),
         DEv.unlinkIntermediate (jsReplaceLastExt env.inputPath "_extended.mp4"),
         DEv.cleanupCall env.inputPath (jsReplaceLastExt env.inputPath ".mov")]) ∧
    (∀ inp dur outp,
      (∃ r, extendArgs inp dur outp = ["-stream_loop", "-1"] ++ r) ∧
      (∃ l r, extendArgs inp dur outp = l ++ ["-c", "copy"] ++ r) ∧
      (∃ l r, extendArgs inp dur outp = l ++ ["-t", toString dur] ++ r)) ∧
    toString minRecommendedDuration = "60" := by
  refine ⟨?_, ?_, ?_, by decide⟩
  · intro hm hd hlt
    cases hcv : (convertWithHEVC env.hwOutcome env.swOutcome env.inputPath
        (jsReplaceLastExt env.inputPath ".mov")).1 with
    | err m =>
      have htr : (convertToMov env).2 =
          [DEv.probe env.inputPath,
           DEv.convertCall env.inputPath (jsReplaceLastExt env.inputPath ".mov")] := by
        simp [convertToMov, hm, hd, hlt, hcv]
      rw [htr]
      exact ⟨fun args => by simp, fun p => by simp⟩
    | ok cp =>
      have htr : (convertToMov env).2 =
          [DEv.probe env.inputPath,
           DEv.convertCall env.inputPath (jsReplaceLastExt env.inputPath ".mov"),
           DEv.cleanupCall env.inputPath cp] := by
        simp [convertToMov, hm, hd, hlt, hcv]
      rw [htr]
      exact ⟨fun args => by simp, fun p => by simp⟩
  · intro hm hd hlt hpo hx hc hne
    have hext := extendVideo_isOk _ _ hx
    have hcv := convertWithHEVC_isOk _ _ _ _ hc
    simp [convertToMov, hm, hd, hlt, hpo, hext, hcv, hne]
  · intro inp dur outp
    refine ⟨⟨["-i", inp, "-t", toString dur, "-c", "copy",
              "-avoid_negative_ts", "make_zero", "-fflags", "+genpts",
              "-y", outp], rfl⟩,
            ⟨["-stream_loop", "-1", "-i", inp, "-t", toString dur],
             ["-avoid_negative_ts", "make_zero", "-fflags", "+genpts",
              "-y", outp], rfl⟩,
            ⟨["-stream_loop", "-1", "-i", inp],
             ["-c", "copy", "-avoid_negative_ts", "make_zero", "-fflags",
              "+genpts", "-y", outp], rfl⟩⟩

/-- Witness for claim C8: the 61-second probe never extends; the 45-second
probe extends with the loop-and-truncate arguments and unlinks the
intermediate after the transcode. -/
theorem c8_witness :
    (∀ args, DEv.extendCall args ∉ (convertToMov envLongVideo).2) ∧
    (convertToMov envShortVideo).2 =
      [DEv.probe envShortVideo.inputPath,
       DEv.extendCall (extendArgs envShortVideo.inputPath minRecommendedDuration
         (jsReplaceLastExt envShortVideo.inputPath "_extended.mp4")),
       DEv.convertCall (jsReplaceLastExt envShortVideo.inputPath "_extended.mp4")
         (jsReplaceLastExt envShortVideo.inputPath ".mov"),
       DEv.unlinkIntermediate (jsReplaceLastExt envShortVideo.inputPath "_extended.mp4"),
       DEv.cleanupCall envShortVideo.inputPath
         (jsReplaceLastExt envShortVideo.inputPath ".mov")] := by
  constructor
  · exact ((c8_duration_gate envLongVideo 61).1 rfl rfl (by norm_num [minRecommendedDuration])).1
  · exact (c8_duration_gate envShortVideo 45).2.1 rfl rfl (by norm_num [minRecommendedDuration]) rfl
      (by decide) (by decide) (by decide)

/-! ## Claim C9 -/

/-- Claim C9: `Utils.fixFilePermissions` is total over every recorded
failure mode (it always resolves to a boolean, never rejecting — rendered by
the embedding being a total function into `Bool`); when the
elevated-privilege identifiers are all absent the `chown` step never runs and
only the chmod step decides the result; and each internal failure — `chown`
exiting non-zero, a `chown` spawn error, or a chmod exception — resolves to
`false`, while full success resolves `true`. -/
theorem c9_fix_permissions (env : PermEnv) :
    (env.sudoUser = none → env.sudoUid = none → env.sudoGid = none →
      (fixFilePermissions env).2 = false ∧
      (fixFilePermissions env).1 = env.chmodOk) ∧
    (∀ c, (truthy (jsOrFalsy env.sudoUser env.user) && truthy env.sudoUid &&
        truthy env.sudoGid) = true →
      env.chownOutcome = .close c → c ≠ 0 →
      fixFilePermissions env = (false, true)) ∧
    (∀ m, (truthy (jsOrFalsy env.sudoUser env.user) && truthy env.sudoUid &&
        truthy env.sudoGid) = true →
      env.chownOutcome = .errored m →
      fixFilePermissions env = (false, true)) ∧
    (env.chmodOk = false → (fixFilePermissions env).1 = false) ∧
    ((truthy (jsOrFalsy env.sudoUser env.user) && truthy env.sudoUid &&
        truthy env.sudoGid) = true →
      env.chownOutcome = .close 0 → env.chmodOk = true →
      fixFilePermissions env = (true, true)) := by
  refine ⟨?_, ?_, ?_, ?_, ?_⟩
  · intro h1 h2 h3
    have hcond : (truthy (jsOrFalsy env.sudoUser env.user) &&
        truthy env.sudoUid && truthy env.sudoGid) = false := by
      simp [h2, truthy]
    constructor
    · simp [fixFilePermissions, hcond]
    · cases hcm : env.chmodOk <;> simp [fixFilePermissions, hcond, hcm]
  · intro c hcond hco hc
    simp [fixFilePermissions, hcond, hco, hc]
  · intro m hcond hco
    simp [fixFilePermissions, hcond, hco]
  · intro hcm
    simp only [fixFilePermissions]
    split
    · rcases hco : env.chownOutcome with c | m
      · by_cases hc : c = 0
        · simp [hco, hc, hcm]
        · simp [hco, hc]
      · simp [hco]
    · simp [hcm]
  · intro hcond hco hcm
    simp [fixFilePermissions, hcond, hco, hcm]

/-- Witness for claim C9: without the sudo identifiers only the chmod runs
and succeeds, and under sudo a non-zero `chown` exit resolves `false`. -/
theorem c9_witness :
    ((fixFilePermissions envPermPlain).2 = false ∧
     (fixFilePermissions envPermPlain).1 = envPermPlain.chmodOk) ∧
    fixFilePermissions envPermChownFails = (false, true) := by
  constructor
  · exact (c9_fix_permissions envPermPlain).1 rfl rfl rfl
  · exact (c9_fix_permissions envPermChownFails).2.1 1 (by decide) rfl (by decide)

/-! ## Claim C10 -/

/-- Claim C10: for a non-empty wallpaper list, the selection promise resolves
only to `null` (and then a cancel answer was given) or to an element of the
list; an answer that is neither a cancel token nor a number inside
`1..length` does not resolve the promise — the flow re-prompts on the rest of
the answer stream. -/
theorem c10_selection_safety (ws : List Wallpaper) (answers : List String)
    (hne : ws ≠ []) :
    (∀ w, (selectWallpaperFromList ws answers).1 = some (some w) → w ∈ ws) ∧
    ((selectWallpaperFromList ws answers).1 = some none →
      ∃ a ∈ answers, jsIsCancel a = true) ∧
    (∀ a rest, jsIsCancel a = false →
      (jsParseInt a = none ∨
        ∀ k, jsParseInt a = some k → k < 1 ∨ (ws.length : Int) < k) →
      (selectWallpaperFromList ws (a :: rest)).1 =
        (selectWallpaperFromList ws rest).1) := by
  refine ⟨selectWallpaperFromList_mem ws answers,
          selectWallpaperFromList_cancel ws answers, ?_⟩
  intro a rest hcan hinv
  simp only [selectWallpaperFromList]
  rw [if_neg (by simp [hcan])]
  rcases hp : jsParseInt a with _ | k
  · rfl
  · have hnk : ¬ (1 ≤ k ∧ k ≤ (ws.length : Int)) := by
      rcases hinv with hnone | hout
      · rw [hp] at hnone; exact absurd hnone (by simp)
      · rcases hout k hp with h | h <;> omega
    dsimp only
    rw [dif_neg hnk]

/-- Witness for claim C10: with the two-asset list, the resolved asset is in
the list, and the garbage answer `"zz"` merely re-prompts. -/
theorem c10_witness :
    (⟨"b.mov", pathJoin targetDir "b.mov", 6⟩ : Wallpaper) ∈
      envTwoAssets.initial ∧
    (selectWallpaperFromList envTwoAssets.initial ["zz", "2"]).1 =
      (selectWallpaperFromList envTwoAssets.initial ["2"]).1 := by
  constructor
  · exact (c10_selection_safety envTwoAssets.initial ["zz", "2"] (by decide)).1
      ⟨"b.mov", pathJoin targetDir "b.mov", 6⟩ (by decide)
  · exact (c10_selection_safety envTwoAssets.initial ["zz", "2"] (by decide)).2.2
      "zz" ["2"] (by decide) (Or.inl (by decide))
